import Mathlib

/-!
Verification development for the browser-based image chat and editor
application. The definitions below are shallow embeddings of the
functions of the repository; numeric JavaScript values are modelled as
real numbers, snapshots and stored payloads as abstract type parameters,
and the remote service reply as explicit data. Each claim theorem is
stated over these embeddings.
-/

/-! ## Mask history (ImageEditorModal: saveState, undo, redo, history state) -/

/-- Embedding of the mask history state of ImageEditorModal.
The component keeps a list of snapshot data URLs together with a cursor.
Snapshots are abstracted by a type parameter. The cursor is an integer
because the component initialises it to minus one. -/
structure MaskState (α : Type) where
  history : List α
  historyIndex : Int
  deriving DecidableEq

/-- Initial React state of the editor, lines 188 and 189 of the editor
component: empty history and cursor minus one. -/
def initialMaskState (α : Type) : MaskState α := ⟨[], -1⟩

/-- Effect at lines 351 to 365: once the committed image is loaded and the
history is still empty, the blank canvas snapshot is stored and the cursor
moves to zero. -/
def installBlank {α : Type} (blank : α) (s : MaskState α) : MaskState α :=
  if s.history.length = 0 then ⟨[blank], 0⟩ else s

/-- saveState, lines 375 to 382: slice the history up to the cursor,
append the current canvas snapshot, and set the cursor to the last
position of the new history. -/
def saveState {α : Type} (snapshot : α) (s : MaskState α) : MaskState α :=
  let newHistory := s.history.take (s.historyIndex + 1).toNat ++ [snapshot]
  ⟨newHistory, (newHistory.length : Int) - 1⟩

/-- undo, lines 384 to 388: decrement the cursor when it is positive. -/
def undo {α : Type} (s : MaskState α) : MaskState α :=
  if 0 < s.historyIndex then ⟨s.history, s.historyIndex - 1⟩ else s

/-- redo, lines 389 to 393: increment the cursor when it is below the last
position. -/
def redo {α : Type} (s : MaskState α) : MaskState α :=
  if s.historyIndex < (s.history.length : Int) - 1 then
    ⟨s.history, s.historyIndex + 1⟩
  else s

/-- The displayed mask is the snapshot the cursor points at; a negative
cursor displays nothing (redrawMask, lines 245 to 263). -/
def displayedMask {α : Type} (s : MaskState α) : Option α :=
  if s.historyIndex < 0 then none else s.history.get? s.historyIndex.toNat

/-- handleClearMask, lines 448 to 455: blank the surface and commit the
blank snapshot through saveState. -/
def clearMask {α : Type} (blankSnapshot : α) (s : MaskState α) : MaskState α :=
  saveState blankSnapshot s

/-- A sequence of stroke commits, each ending in a saveState call
(stopDrawing, lines 418 to 426). -/
def commitStrokes {α : Type} (strokes : List α) (s : MaskState α) : MaskState α :=
  strokes.foldl (fun t snap => saveState snap t) s

/-- The cursor invariant of the spec: cursor inside the history and the
snapshot at index zero is the blank mask. -/
def maskInvariant {α : Type} (blank : α) (s : MaskState α) : Prop :=
  0 ≤ s.historyIndex ∧ s.historyIndex < (s.history.length : Int) ∧
    s.history.head? = some blank

instance {α : Type} [DecidableEq α] (blank : α) (s : MaskState α) :
    Decidable (maskInvariant blank s) := by
  unfold maskInvariant
  infer_instance

theorem saveState_at_tip {α : Type} (snap : α) (h : List α) :
    saveState snap ⟨h, (h.length : Int) - 1⟩ = ⟨h ++ [snap], (h.length : Int)⟩ := by
  simp only [saveState]
  have h1 : ((h.length : Int) - 1 + 1).toNat = h.length := by omega
  simp [h1]

theorem commitStrokes_from_tip {α : Type} (strokes : List α) (h : List α) :
    commitStrokes strokes ⟨h, (h.length : Int) - 1⟩ =
      ⟨h ++ strokes, ((h ++ strokes).length : Int) - 1⟩ := by
  induction strokes generalizing h with
  | nil => simp [commitStrokes]
  | cons a l ih =>
    have step : commitStrokes (a :: l) ⟨h, (h.length : Int) - 1⟩ =
        commitStrokes l (saveState a ⟨h, (h.length : Int) - 1⟩) := rfl
    rw [step, saveState_at_tip]
    have h2 : (h.length : Int) = ((h ++ [a]).length : Int) - 1 := by simp
    rw [h2, ih (h ++ [a])]
    simp

theorem undo_iterate {α : Type} (K : Nat) (H : List α) (n : Int)
    (hK : (K : Int) ≤ n) : undo^[K] (⟨H, n⟩ : MaskState α) = ⟨H, n - K⟩ := by
  induction K generalizing n with
  | zero => simp
  | succ k ih =>
    rw [Function.iterate_succ_apply]
    have hpos : 0 < n := by omega
    have hstep : undo (⟨H, n⟩ : MaskState α) = ⟨H, n - 1⟩ := by
      simp [undo, hpos]
    rw [hstep, ih (n - 1) (by omega)]
    congr 1
    omega

theorem redo_after_saveState {α : Type} (snap : α) (s : MaskState α) :
    redo (saveState snap s) = saveState snap s := by
  simp [redo, saveState]

/-- Claim C1 counterexample: in the scenario where the user paints one
stroke from a freshly initialised session, undoes once, and paints a new
stroke, the resulting history length is not historyIndexBeforeUndo plus
two, contrary to the claim. -/
theorem mask_scenario_plus_two_fails :
    ¬ (((saveState 2 (undo (saveState 1 (installBlank 0 (initialMaskState Nat))))).history.length : Int) =
        (saveState 1 (installBlank 0 (initialMaskState Nat))).historyIndex + 2) := by
  decide

/-- Claim C1 (amended): from the session initial state, after N stroke
commits followed by K undos with K at most N, the displayed mask is the
history snapshot at index N minus K; a new stroke commit discards all
snapshots beyond the cursor, so a redo right after any commit is a no-op;
and in the scenario of one stroke, one undo, then a new stroke, the
resulting history length equals historyIndexBeforeUndo plus one, not plus
two. -/
theorem mask_undo_redo_semantics {α : Type} (blank : α) (strokes : List α)
    (K : Nat) (hK : K ≤ strokes.length) :
    displayedMask (undo^[K] (commitStrokes strokes (installBlank blank (initialMaskState α)))) =
      (commitStrokes strokes (installBlank blank (initialMaskState α))).history.get?
        (strokes.length - K) ∧
    (∀ (snap : α) (s : MaskState α), redo (saveState snap s) = saveState snap s) ∧
    (∀ s1 s2 : α,
      ((saveState s2 (undo (saveState s1 (installBlank blank (initialMaskState α))))).history.length : Int) =
        (saveState s1 (installBlank blank (initialMaskState α))).historyIndex + 1) := by
  have hinit : installBlank blank (initialMaskState α) = ⟨[blank], 0⟩ := by
    simp [installBlank, initialMaskState]
  have htip : (⟨[blank], 0⟩ : MaskState α) =
      ⟨[blank], (([blank] : List α).length : Int) - 1⟩ := by simp
  have hcommit : commitStrokes strokes (installBlank blank (initialMaskState α)) =
      ⟨blank :: strokes, (strokes.length : Int)⟩ := by
    rw [hinit, htip, commitStrokes_from_tip]
    simp
  refine ⟨?_, redo_after_saveState, ?_⟩
  · rw [hcommit, undo_iterate K (blank :: strokes) (strokes.length : Int) (by omega)]
    have hnonneg : (0 : Int) ≤ (strokes.length : Int) - K := by omega
    have hidx : ¬ ((strokes.length : Int) - K < 0) := by omega
    simp only [displayedMask, hidx, if_false]
    congr 1
    omega
  · intro s1 s2
    rw [hinit]
    have h1 : saveState s1 (⟨[blank], 0⟩ : MaskState α) = ⟨[blank, s1], 1⟩ := by
      simp [saveState]
    have h2 : undo (⟨[blank, s1], 1⟩ : MaskState α) = ⟨[blank, s1], 0⟩ := by
      simp [undo]
    rw [h1, h2]
    simp [saveState]

/-- Claim C1 witness: the amended statement instantiated with a blank
snapshot 0, stroke snapshots 1 and 2, and one undo. -/
theorem mask_undo_redo_semantics_witness :
    (1 ≤ [1, 2].length) ∧
    (displayedMask (undo^[1] (commitStrokes [1, 2] (installBlank 0 (initialMaskState Nat)))) =
      (commitStrokes [1, 2] (installBlank 0 (initialMaskState Nat))).history.get?
        ([1, 2].length - 1) ∧
    (∀ (snap : Nat) (s : MaskState Nat), redo (saveState snap s) = saveState snap s) ∧
    (∀ s1 s2 : Nat,
      ((saveState s2 (undo (saveState s1 (installBlank 0 (initialMaskState Nat))))).history.length : Int) =
        (saveState s1 (installBlank 0 (initialMaskState Nat))).historyIndex + 1)) :=
  ⟨by decide, mask_undo_redo_semantics 0 [1, 2] 1 (by decide)⟩

/-- Claim C7 counterexample: the raw initial React state of lines 188 and
189, history empty and cursor minus one, violates the cursor invariant,
so the invariant does not hold at that initial state as claimed. -/
theorem mask_invariant_initial_fails :
    ¬ maskInvariant 0 (initialMaskState Nat) := by
  decide

/-- Claim C7 (amended): from the moment the session installs the blank
snapshot (the state with history equal to the singleton blank list and
cursor zero), the cursor invariant holds, and it is preserved by every
mask operation: stroke commit, undo, redo and clear. -/
theorem mask_history_cursor_invariant {α : Type} (blank snap : α)
    (s : MaskState α) (h : maskInvariant blank s) :
    maskInvariant blank (installBlank blank (initialMaskState α)) ∧
    maskInvariant blank (saveState snap s) ∧
    maskInvariant blank (undo s) ∧
    maskInvariant blank (redo s) ∧
    maskInvariant blank (clearMask blank s) := by
  obtain ⟨h0, h1, h2⟩ := h
  have hsave : ∀ t : α, maskInvariant blank (saveState t s) := by
    intro t
    have hlen : 1 ≤ (s.historyIndex + 1).toNat := by omega
    have hne : s.history ≠ [] := by
      intro hcon
      rw [hcon] at h1
      simp at h1
      omega
    refine ⟨?_, ?_, ?_⟩
    · simp [saveState]
    · simp [saveState]
    · simp only [saveState]
      obtain ⟨a, t2, hsh⟩ := List.exists_cons_of_ne_nil hne
      obtain ⟨m, hm⟩ : ∃ m, (s.historyIndex + 1).toNat = m + 1 := by
        refine ⟨(s.historyIndex + 1).toNat - 1, ?_⟩
        omega
      rw [hsh] at h2 ⊢
      rw [hm]
      simp only [List.take_succ_cons, List.cons_append, List.head?_cons]
      simpa using h2
  refine ⟨?_, hsave snap, ?_, ?_, hsave blank⟩
  · simp [maskInvariant, installBlank, initialMaskState]
  · by_cases hpos : 0 < s.historyIndex
    · exact ⟨by simp [undo, hpos]; omega, by simp [undo, hpos]; omega,
        by simp [undo, hpos]; exact h2⟩
    · simp only [undo, if_neg hpos]
      exact ⟨h0, h1, h2⟩
  · by_cases hlt : s.historyIndex < (s.history.length : Int) - 1
    · exact ⟨by simp [redo, hlt]; omega, by simp [redo, hlt]; omega,
        by simp [redo, hlt]; exact h2⟩
    · simp only [redo, if_neg hlt]
      exact ⟨h0, h1, h2⟩

/-- Claim C7 witness: the amended invariant statement instantiated at the
session state with blank snapshot 0 and a stroke snapshot 1. -/
theorem mask_history_cursor_invariant_witness :
    maskInvariant 0 (⟨[0], 0⟩ : MaskState Nat) ∧
    (maskInvariant 0 (installBlank 0 (initialMaskState Nat)) ∧
     maskInvariant 0 (saveState 1 (⟨[0], 0⟩ : MaskState Nat)) ∧
     maskInvariant 0 (undo (⟨[0], 0⟩ : MaskState Nat)) ∧
     maskInvariant 0 (redo (⟨[0], 0⟩ : MaskState Nat)) ∧
     maskInvariant 0 (clearMask 0 (⟨[0], 0⟩ : MaskState Nat))) :=
  ⟨by decide, mask_history_cursor_invariant 0 1 ⟨[0], 0⟩ (by decide)⟩

/-! ## Crop box normalization (ImageEditorModal: crop drag effect) -/

/-- The crop rectangle state, in on-screen canvas coordinates. -/
structure CropBox where
  x : ℝ
  y : ℝ
  width : ℝ
  height : ℝ

/-- The nine crop handles: eight resize handles plus move. -/
inductive CropHandle
  | move
  | nw
  | n
  | ne
  | e
  | se
  | s
  | sw
  | w
  deriving DecidableEq

/-- Whether the handle name contains the letter n in the source. -/
def hasN : CropHandle → Bool
  | CropHandle.nw => true
  | CropHandle.n => true
  | CropHandle.ne => true
  | _ => false

/-- Whether the handle name contains the letter s in the source. -/
def hasS : CropHandle → Bool
  | CropHandle.sw => true
  | CropHandle.s => true
  | CropHandle.se => true
  | _ => false

/-- Whether the handle name contains the letter w in the source. -/
def hasW : CropHandle → Bool
  | CropHandle.nw => true
  | CropHandle.w => true
  | CropHandle.sw => true
  | _ => false

/-- Whether the handle name contains the letter e in the source. -/
def hasE : CropHandle → Bool
  | CropHandle.ne => true
  | CropHandle.e => true
  | CropHandle.se => true
  | _ => false

/-- The raw per-handle delta update of handleMouseMove, lines 530 to 540:
move shifts the origin, the directional handles adjust their own axis. -/
def rawCropUpdate (handle : CropHandle) (b : CropBox) (dx dy : ℝ) : CropBox :=
  if handle = CropHandle.move then { b with x := b.x + dx, y := b.y + dy }
  else
    let b1 := if hasN handle then { b with y := b.y + dy, height := b.height - dy } else b
    let b2 := if hasS handle then { b1 with height := b1.height + dy } else b1
    let b3 := if hasW handle then { b2 with x := b2.x + dx, width := b2.width - dx } else b2
    if hasE handle then { b3 with width := b3.width + dx } else b3

/-- The normalization of lines 541 to 548: a negative width or height
shifts the origin by that amount and replaces the extent by its absolute
value. -/
noncomputable def normalizeCropBox (b : CropBox) : CropBox :=
  let b1 := if b.width < 0 then { b with x := b.x + b.width, width := |b.width| } else b
  if b1.height < 0 then { b1 with y := b1.y + b1.height, height := |b1.height| } else b1

/-- One full crop drag step: raw update followed by normalization, as in
the mouse move effect at lines 524 to 551. -/
noncomputable def handleCropDrag (handle : CropHandle) (b : CropBox) (dx dy : ℝ) : CropBox :=
  normalizeCropBox (rawCropUpdate handle b dx dy)

theorem normalizeCropBox_spec (b : CropBox) :
    0 ≤ (normalizeCropBox b).width ∧ 0 ≤ (normalizeCropBox b).height ∧
    (normalizeCropBox b).x = min b.x (b.x + b.width) ∧
    (normalizeCropBox b).x + (normalizeCropBox b).width = max b.x (b.x + b.width) ∧
    (normalizeCropBox b).y = min b.y (b.y + b.height) ∧
    (normalizeCropBox b).y + (normalizeCropBox b).height = max b.y (b.y + b.height) ∧
    (normalizeCropBox b).width = |b.width| ∧
    (normalizeCropBox b).height = |b.height| := by
  rcases lt_or_le b.width 0 with hw | hw <;> rcases lt_or_le b.height 0 with hh | hh
  · have hnb : normalizeCropBox b =
        ⟨b.x + b.width, b.y + b.height, |b.width|, |b.height|⟩ := by
      simp [normalizeCropBox, hw, hh]
    rw [hnb]
    refine ⟨abs_nonneg _, abs_nonneg _, ?_, ?_, ?_, ?_, rfl, rfl⟩
    · rw [min_eq_right (by linarith)]
    · rw [abs_of_neg hw, max_eq_left (by linarith)]
      ring
    · rw [min_eq_right (by linarith)]
    · rw [abs_of_neg hh, max_eq_left (by linarith)]
      ring
  · have hnb : normalizeCropBox b =
        ⟨b.x + b.width, b.y, |b.width|, b.height⟩ := by
      simp [normalizeCropBox, hw, not_lt.mpr hh]
    rw [hnb]
    refine ⟨abs_nonneg _, hh, ?_, ?_, ?_, ?_, rfl, (abs_of_nonneg hh).symm⟩
    · rw [min_eq_right (by linarith)]
    · rw [abs_of_neg hw, max_eq_left (by linarith)]
      ring
    · rw [min_eq_left (by linarith)]
    · rw [max_eq_right (by linarith)]
  · have hnb : normalizeCropBox b =
        ⟨b.x, b.y + b.height, b.width, |b.height|⟩ := by
      simp [normalizeCropBox, not_lt.mpr hw, hh]
    rw [hnb]
    refine ⟨hw, abs_nonneg _, ?_, ?_, ?_, ?_, (abs_of_nonneg hw).symm, rfl⟩
    · rw [min_eq_left (by linarith)]
    · rw [max_eq_right (by linarith)]
    · rw [min_eq_right (by linarith)]
    · rw [abs_of_neg hh, max_eq_left (by linarith)]
      ring
  · have hnb : normalizeCropBox b = b := by
      simp [normalizeCropBox, not_lt.mpr hw, not_lt.mpr hh]
    rw [hnb]
    refine ⟨hw, hh, ?_, ?_, ?_, ?_, (abs_of_nonneg hw).symm, (abs_of_nonneg hh).symm⟩
    · rw [min_eq_left (by linarith)]
    · rw [max_eq_right (by linarith)]
    · rw [min_eq_left (by linarith)]
    · rw [max_eq_right (by linarith)]

/-- Claim C2: every drag of any of the nine crop handles yields a box
with non-negative width and height; when the raw update would produce a
negative extent the origin is shifted by that amount and the extent
replaced by its absolute value, so the normalized box covers the same
geometric region as the raw box. -/
theorem crop_drag_normalized (handle : CropHandle) (b : CropBox) (dx dy : ℝ) :
    0 ≤ (handleCropDrag handle b dx dy).width ∧
    0 ≤ (handleCropDrag handle b dx dy).height ∧
    (handleCropDrag handle b dx dy).x =
      min (rawCropUpdate handle b dx dy).x
        ((rawCropUpdate handle b dx dy).x + (rawCropUpdate handle b dx dy).width) ∧
    (handleCropDrag handle b dx dy).x + (handleCropDrag handle b dx dy).width =
      max (rawCropUpdate handle b dx dy).x
        ((rawCropUpdate handle b dx dy).x + (rawCropUpdate handle b dx dy).width) ∧
    (handleCropDrag handle b dx dy).y =
      min (rawCropUpdate handle b dx dy).y
        ((rawCropUpdate handle b dx dy).y + (rawCropUpdate handle b dx dy).height) ∧
    (handleCropDrag handle b dx dy).y + (handleCropDrag handle b dx dy).height =
      max (rawCropUpdate handle b dx dy).y
        ((rawCropUpdate handle b dx dy).y + (rawCropUpdate handle b dx dy).height) ∧
    (handleCropDrag handle b dx dy).width = |(rawCropUpdate handle b dx dy).width| ∧
    (handleCropDrag handle b dx dy).height = |(rawCropUpdate handle b dx dy).height| :=
  normalizeCropBox_spec (rawCropUpdate handle b dx dy)

/-! ## Color adjustment and filter pipeline (canvas ctx filter strings) -/

/-- A pixel color with real channels, the idealization of a canvas
pixel. -/
structure Color where
  r : ℝ
  g : ℝ
  b : ℝ
  a : ℝ

/-- CSS brightness filter primitive: scales the color channels. -/
noncomputable def brightnessFilter (k : ℝ) (c : Color) : Color :=
  ⟨k * c.r, k * c.g, k * c.b, c.a⟩

/-- CSS contrast filter primitive: slope k around the midpoint. -/
noncomputable def contrastFilter (k : ℝ) (c : Color) : Color :=
  ⟨k * c.r + (1 - k) / 2, k * c.g + (1 - k) / 2, k * c.b + (1 - k) / 2, c.a⟩

/-- CSS saturate filter primitive, the standard filter-effects matrix. -/
noncomputable def saturateFilter (k : ℝ) (c : Color) : Color :=
  ⟨(0.213 + 0.787 * k) * c.r + (0.715 - 0.715 * k) * c.g + (0.072 - 0.072 * k) * c.b,
   (0.213 - 0.213 * k) * c.r + (0.715 + 0.285 * k) * c.g + (0.072 - 0.072 * k) * c.b,
   (0.213 - 0.213 * k) * c.r + (0.715 - 0.715 * k) * c.g + (0.072 + 0.928 * k) * c.b,
   c.a⟩

/-- CSS sepia filter primitive, the standard filter-effects matrix. -/
noncomputable def sepiaFilter (k : ℝ) (c : Color) : Color :=
  ⟨(1 - 0.607 * k) * c.r + 0.769 * k * c.g + 0.189 * k * c.b,
   0.349 * k * c.r + (1 - 0.314 * k) * c.g + 0.168 * k * c.b,
   0.272 * k * c.r + 0.534 * k * c.g + (1 - 0.869 * k) * c.b,
   c.a⟩

/-- CSS grayscale filter primitive, the standard filter-effects matrix. -/
noncomputable def grayscaleFilter (k : ℝ) (c : Color) : Color :=
  ⟨(1 - 0.7874 * k) * c.r + 0.7152 * k * c.g + 0.0722 * k * c.b,
   0.2126 * k * c.r + (1 - 0.2848 * k) * c.g + 0.0722 * k * c.b,
   0.2126 * k * c.r + 0.7152 * k * c.g + (1 - 0.9278 * k) * c.b,
   c.a⟩

/-- Degrees to radians, as rotation times pi over 180 in the source. -/
noncomputable def degToRad (d : ℝ) : ℝ := d * Real.pi / 180

/-- CSS hue-rotate filter primitive, the standard filter-effects
matrix. -/
noncomputable def hueRotateFilter (deg : ℝ) (c : Color) : Color :=
  let co := Real.cos (degToRad deg)
  let si := Real.sin (degToRad deg)
  ⟨(0.213 + 0.787 * co - 0.213 * si) * c.r + (0.715 - 0.715 * co - 0.715 * si) * c.g +
     (0.072 - 0.072 * co + 0.928 * si) * c.b,
   (0.213 - 0.213 * co + 0.143 * si) * c.r + (0.715 + 0.285 * co + 0.14 * si) * c.g +
     (0.072 - 0.072 * co - 0.283 * si) * c.b,
   (0.213 - 0.213 * co - 0.787 * si) * c.r + (0.715 - 0.715 * co + 0.715 * si) * c.g +
     (0.072 + 0.928 * co + 0.072 * si) * c.b,
   c.a⟩

/-- The named color filter presets of the types module, as compositions
of the CSS primitives in left to right order; the style string none and
any unrecognised string leave the pixel unchanged. -/
noncomputable def cssPresetFilter (style : String) (c : Color) : Color :=
  if style = "none" then c
  else if style = "sepia(0.6) contrast(1.1) brightness(0.9) saturate(1.2)" then
    saturateFilter 1.2 (brightnessFilter 0.9 (contrastFilter 1.1 (sepiaFilter 0.6 c)))
  else if style = "contrast(1.4) saturate(1.1) brightness(0.9) hue-rotate(-10deg) sepia(0.3)" then
    sepiaFilter 0.3 (hueRotateFilter (-10) (brightnessFilter 0.9 (saturateFilter 1.1 (contrastFilter 1.4 c))))
  else if style = "grayscale(1) contrast(1.3) brightness(0.9)" then
    brightnessFilter 0.9 (contrastFilter 1.3 (grayscaleFilter 1 c))
  else if style = "contrast(1.5) brightness(1.1) saturate(1.8) hue-rotate(-20deg)" then
    hueRotateFilter (-20) (saturateFilter 1.8 (brightnessFilter 1.1 (contrastFilter 1.5 c)))
  else if style = "saturate(0.7) contrast(0.9) brightness(1.1)" then
    brightnessFilter 1.1 (contrastFilter 0.9 (saturateFilter 0.7 c))
  else if style = "saturate(1.5) contrast(1.2) brightness(1.05)" then
    brightnessFilter 1.05 (contrastFilter 1.2 (saturateFilter 1.5 c))
  else if style = "contrast(1.1) brightness(1.05) hue-rotate(-15deg) saturate(1.1)" then
    saturateFilter 1.1 (hueRotateFilter (-15) (brightnessFilter 1.05 (contrastFilter 1.1 c)))
  else if style = "sepia(0.2) contrast(1.05) brightness(1.05) hue-rotate(10deg)" then
    hueRotateFilter 10 (brightnessFilter 1.05 (contrastFilter 1.05 (sepiaFilter 0.2 c)))
  else c

/-- The ctx filter chain of getBakedImageData and renderCanvas: active
filter preset, then brightness, contrast and saturate percentages. -/
noncomputable def adjustPipeline (activeFilter : String)
    (brightness contrast saturation : ℝ) (c : Color) : Color :=
  saturateFilter (saturation / 100)
    (contrastFilter (contrast / 100)
      (brightnessFilter (brightness / 100) (cssPresetFilter activeFilter c)))

theorem adjustPipeline_neutral (c : Color) :
    adjustPipeline "none" 100 100 100 c = c := by
  obtain ⟨r, g, b, a⟩ := c
  simp only [adjustPipeline, cssPresetFilter, if_pos, brightnessFilter,
    contrastFilter, saturateFilter, Color.mk.injEq]
  norm_num

/-! ## Raster model and the bake stage (getBakedImageData) -/

/-- An idealized raster: real dimensions plus a pixel lookup on real
coordinates. -/
structure Raster where
  width : ℝ
  height : ℝ
  pixel : ℝ × ℝ → Color

/-- The non-destructive transform state of the editor. -/
structure TransformState where
  rotation : ℝ
  uniformScale : ℝ
  flipX : ℝ
  flipY : ℝ

/-- The adjustment state of the editor. -/
structure AdjustmentState where
  brightness : ℝ
  contrast : ℝ
  saturation : ℝ
  activeFilter : String

/-- The neutral transform: rotation 0, uniform scale 1, no flips. -/
def identityTransform : TransformState := ⟨0, 1, 1, 1⟩

/-- The neutral adjustments: 100 percent everywhere and no filter. -/
def neutralAdjustments : AdjustmentState := ⟨100, 100, 100, "none"⟩

/-- ctx.translate as a point operation. -/
def translatePoint (tx ty : ℝ) (p : ℝ × ℝ) : ℝ × ℝ := (p.1 + tx, p.2 + ty)

/-- ctx.rotate as a point operation. -/
noncomputable def rotatePoint (rad : ℝ) (p : ℝ × ℝ) : ℝ × ℝ :=
  (Real.cos rad * p.1 - Real.sin rad * p.2, Real.sin rad * p.1 + Real.cos rad * p.2)

/-- The inverse rotation. -/
noncomputable def unrotatePoint (rad : ℝ) (p : ℝ × ℝ) : ℝ × ℝ :=
  (Real.cos rad * p.1 + Real.sin rad * p.2, -Real.sin rad * p.1 + Real.cos rad * p.2)

/-- ctx.scale as a point operation. -/
def scalePoint (sx sy : ℝ) (p : ℝ × ℝ) : ℝ × ℝ := (sx * p.1, sy * p.2)

/-- The inverse scale. -/
noncomputable def unscalePoint (sx sy : ℝ) (p : ℝ × ℝ) : ℝ × ℝ := (p.1 / sx, p.2 / sy)

theorem unrotatePoint_rotatePoint (rad : ℝ) (p : ℝ × ℝ) :
    unrotatePoint rad (rotatePoint rad p) = p := by
  obtain ⟨x, y⟩ := p
  simp only [rotatePoint, unrotatePoint, Prod.mk.injEq]
  constructor
  · linear_combination x * Real.sin_sq_add_cos_sq rad
  · linear_combination y * Real.sin_sq_add_cos_sq rad

theorem unscalePoint_scalePoint (sx sy : ℝ) (hx : sx ≠ 0) (hy : sy ≠ 0) (p : ℝ × ℝ) :
    unscalePoint sx sy (scalePoint sx sy p) = p := by
  obtain ⟨x, y⟩ := p
  simp only [scalePoint, unscalePoint, Prod.mk.injEq]
  constructor <;> field_simp

/-- Width of the baked canvas in getBakedImageData, lines 587 to 592. -/
noncomputable def bakedWidth (img : Raster) (t : TransformState) : ℝ :=
  |img.width * t.uniformScale * Real.cos (degToRad t.rotation)| +
    |img.height * t.uniformScale * Real.sin (degToRad t.rotation)|

/-- Height of the baked canvas in getBakedImageData, lines 587 to 593. -/
noncomputable def bakedHeight (img : Raster) (t : TransformState) : ℝ :=
  |img.width * t.uniformScale * Real.sin (degToRad t.rotation)| +
    |img.height * t.uniformScale * Real.cos (degToRad t.rotation)|

/-- One axis of the drawImage destination rectangle of the bake: the
image is drawn from minus half the scaled extent with the scaled extent
as size, so a source coordinate u on an axis of natural size lands at
minus extent over two plus u times extent over natural. -/
noncomputable def drawDestCoord (natural extent : ℝ) (u : ℝ) : ℝ :=
  -(extent / 2) + u * (extent / natural)

/-- The inverse of drawDestCoord: the source coordinate a destination
coordinate samples. -/
noncomputable def drawSourceCoord (natural extent : ℝ) (d : ℝ) : ℝ :=
  (d + extent / 2) * natural / extent

theorem drawSourceCoord_drawDestCoord (natural extent u : ℝ)
    (hn : natural ≠ 0) (he : extent ≠ 0) :
    drawSourceCoord natural extent (drawDestCoord natural extent u) = u := by
  unfold drawSourceCoord drawDestCoord
  field_simp
  ring

theorem translatePoint_neg (tx ty : ℝ) (q : ℝ × ℝ) :
    translatePoint (-tx) (-ty) (translatePoint tx ty q) = q := by
  obtain ⟨a, b⟩ := q
  simp only [translatePoint, Prod.mk.injEq]
  constructor <;> ring

/-- The forward map of getBakedImageData from source image coordinates to
baked canvas coordinates: the drawImage destination rectangle composed
with ctx.scale of the flips, ctx.rotate and ctx.translate to the canvas
center (lines 595 to 600). -/
noncomputable def bakeCanvasPoint (img : Raster) (t : TransformState) (p : ℝ × ℝ) : ℝ × ℝ :=
  translatePoint (bakedWidth img t / 2) (bakedHeight img t / 2)
    (rotatePoint (degToRad t.rotation)
      (scalePoint t.flipX t.flipY
        (drawDestCoord img.width (img.width * t.uniformScale) p.1,
         drawDestCoord img.height (img.height * t.uniformScale) p.2)))

/-- The matching sampling map of the baked canvas: the source image
coordinate a baked canvas point reads from, the step by step inverse of
bakeCanvasPoint. -/
noncomputable def bakeSourcePoint (img : Raster) (t : TransformState) (q : ℝ × ℝ) : ℝ × ℝ :=
  (drawSourceCoord img.width (img.width * t.uniformScale)
      (unscalePoint t.flipX t.flipY
        (unrotatePoint (degToRad t.rotation)
          (translatePoint (-(bakedWidth img t / 2)) (-(bakedHeight img t / 2)) q))).1,
   drawSourceCoord img.height (img.height * t.uniformScale)
      (unscalePoint t.flipX t.flipY
        (unrotatePoint (degToRad t.rotation)
          (translatePoint (-(bakedWidth img t / 2)) (-(bakedHeight img t / 2)) q))).2)

theorem bakeSourcePoint_leftInverse (img : Raster) (t : TransformState)
    (hW : img.width ≠ 0) (hH : img.height ≠ 0) (hs : t.uniformScale ≠ 0)
    (hx : t.flipX ≠ 0) (hy : t.flipY ≠ 0) (p : ℝ × ℝ) :
    bakeSourcePoint img t (bakeCanvasPoint img t p) = p := by
  obtain ⟨x, y⟩ := p
  have hw2 : img.width * t.uniformScale ≠ 0 := mul_ne_zero hW hs
  have hh2 : img.height * t.uniformScale ≠ 0 := mul_ne_zero hH hs
  simp only [bakeSourcePoint, bakeCanvasPoint, translatePoint_neg,
    unrotatePoint_rotatePoint, unscalePoint_scalePoint t.flipX t.flipY hx hy]
  rw [drawSourceCoord_drawDestCoord img.width _ _ hW hw2,
    drawSourceCoord_drawDestCoord img.height _ _ hH hh2]

/-- Embedding of getBakedImageData, lines 576 to 607: a raster of the
rotated extent at native resolution whose pixels sample the committed
image through the inverse transform chain and the adjustment filter
chain. -/
noncomputable def getBakedImageData (img : Raster) (adj : AdjustmentState)
    (t : TransformState) : Raster :=
  { width := bakedWidth img t,
    height := bakedHeight img t,
    pixel := fun q =>
      adjustPipeline adj.activeFilter adj.brightness adj.contrast adj.saturation
        (img.pixel (bakeSourcePoint img t q)) }

/-- Claim C3: baking with neutral adjustments (100, 100, 100, none) and
the identity transform returns a raster of the same dimensions as the
committed source image whose pixels equal the source pixels. -/
theorem bake_identity (img : Raster) (hW : 0 < img.width) (hH : 0 < img.height) :
    (getBakedImageData img neutralAdjustments identityTransform).width = img.width ∧
    (getBakedImageData img neutralAdjustments identityTransform).height = img.height ∧
    ∀ q, (getBakedImageData img neutralAdjustments identityTransform).pixel q =
      img.pixel q := by
  have hbw : bakedWidth img identityTransform = img.width := by
    simp [bakedWidth, identityTransform, degToRad, abs_of_pos hW]
  have hbh : bakedHeight img identityTransform = img.height := by
    simp [bakedHeight, identityTransform, degToRad, abs_of_pos hH]
  refine ⟨?_, ?_, ?_⟩
  · simp only [getBakedImageData]
    exact hbw
  · simp only [getBakedImageData]
    exact hbh
  · intro q
    obtain ⟨q1, q2⟩ := q
    have hsrc : bakeSourcePoint img identityTransform (q1, q2) = (q1, q2) := by
      have hfx : identityTransform.flipX = 1 := rfl
      have hfy : identityTransform.flipY = 1 := rfl
      have hus : identityTransform.uniformScale = 1 := rfl
      have hrot : identityTransform.rotation = 0 := rfl
      have hdr : degToRad 0 = 0 := by simp [degToRad]
      simp only [bakeSourcePoint, hbw, hbh, hfx, hfy, hus, hrot, hdr,
        Real.cos_zero, Real.sin_zero, translatePoint, unrotatePoint, unscalePoint,
        drawSourceCoord, one_mul, zero_mul, neg_zero, add_zero, zero_add, mul_one,
        div_one, Prod.mk.injEq]
      constructor <;> field_simp
    simp only [getBakedImageData, neutralAdjustments, hsrc]
    exact adjustPipeline_neutral _

/-- Claim C3 witness: the bake identity at a concrete one by one
raster. -/
theorem bake_identity_witness :
    (0 : ℝ) < 1 ∧
    ((getBakedImageData ⟨1, 1, fun _ => ⟨0, 0, 0, 0⟩⟩ neutralAdjustments identityTransform).width =
        (⟨1, 1, fun _ => ⟨0, 0, 0, 0⟩⟩ : Raster).width ∧
      (getBakedImageData ⟨1, 1, fun _ => ⟨0, 0, 0, 0⟩⟩ neutralAdjustments identityTransform).height =
        (⟨1, 1, fun _ => ⟨0, 0, 0, 0⟩⟩ : Raster).height ∧
      ∀ q, (getBakedImageData ⟨1, 1, fun _ => ⟨0, 0, 0, 0⟩⟩ neutralAdjustments identityTransform).pixel q =
        (⟨1, 1, fun _ => ⟨0, 0, 0, 0⟩⟩ : Raster).pixel q) :=
  ⟨by norm_num, bake_identity ⟨1, 1, fun _ => ⟨0, 0, 0, 0⟩⟩ (by norm_num) (by norm_num)⟩

/-! ## Fit to container (renderCanvas, lines 275 to 300) -/

/-- The rotated horizontal extent computed by renderCanvas: scaled width
times the absolute cosine plus scaled height times the absolute sine. -/
noncomputable def renderRotatedWidth (naturalW naturalH : ℝ) (t : TransformState) : ℝ :=
  naturalW * t.uniformScale * |Real.cos (degToRad t.rotation)| +
    naturalH * t.uniformScale * |Real.sin (degToRad t.rotation)|

/-- The rotated vertical extent computed by renderCanvas. -/
noncomputable def renderRotatedHeight (naturalW naturalH : ℝ) (t : TransformState) : ℝ :=
  naturalW * t.uniformScale * |Real.sin (degToRad t.rotation)| +
    naturalH * t.uniformScale * |Real.cos (degToRad t.rotation)|

/-- The display scale chosen by renderCanvas: the minimum of the per-axis
ratios of the container extent minus the 40 pixel margin to the rotated
extent. -/
noncomputable def renderDisplayScale (naturalW naturalH : ℝ) (t : TransformState)
    (containerW containerH : ℝ) : ℝ :=
  min ((containerW - 40) / renderRotatedWidth naturalW naturalH t)
    ((containerH - 40) / renderRotatedHeight naturalW naturalH t)

theorem renderRotatedWidth_pos (naturalW naturalH : ℝ) (t : TransformState)
    (hw : 0 < naturalW) (hh : 0 < naturalH) (hs : 0 < t.uniformScale) :
    0 < renderRotatedWidth naturalW naturalH t := by
  have hA : 0 < naturalW * t.uniformScale := mul_pos hw hs
  have hB : 0 < naturalH * t.uniformScale := mul_pos hh hs
  have hcs := Real.sin_sq_add_cos_sq (degToRad t.rotation)
  unfold renderRotatedWidth
  rcases eq_or_ne (Real.cos (degToRad t.rotation)) 0 with hc | hc
  · have hsne : Real.sin (degToRad t.rotation) ≠ 0 := by
      intro h0
      rw [h0, hc] at hcs
      norm_num at hcs
    have h1 : 0 < naturalH * t.uniformScale * |Real.sin (degToRad t.rotation)| :=
      mul_pos hB (abs_pos.mpr hsne)
    have h2 : 0 ≤ naturalW * t.uniformScale * |Real.cos (degToRad t.rotation)| :=
      mul_nonneg (le_of_lt hA) (abs_nonneg _)
    linarith
  · have h1 : 0 < naturalW * t.uniformScale * |Real.cos (degToRad t.rotation)| :=
      mul_pos hA (abs_pos.mpr hc)
    have h2 : 0 ≤ naturalH * t.uniformScale * |Real.sin (degToRad t.rotation)| :=
      mul_nonneg (le_of_lt hB) (abs_nonneg _)
    linarith

theorem renderRotatedHeight_pos (naturalW naturalH : ℝ) (t : TransformState)
    (hw : 0 < naturalW) (hh : 0 < naturalH) (hs : 0 < t.uniformScale) :
    0 < renderRotatedHeight naturalW naturalH t := by
  have hA : 0 < naturalW * t.uniformScale := mul_pos hw hs
  have hB : 0 < naturalH * t.uniformScale := mul_pos hh hs
  have hcs := Real.sin_sq_add_cos_sq (degToRad t.rotation)
  unfold renderRotatedHeight
  rcases eq_or_ne (Real.cos (degToRad t.rotation)) 0 with hc | hc
  · have hsne : Real.sin (degToRad t.rotation) ≠ 0 := by
      intro h0
      rw [h0, hc] at hcs
      norm_num at hcs
    have h1 : 0 < naturalW * t.uniformScale * |Real.sin (degToRad t.rotation)| :=
      mul_pos hA (abs_pos.mpr hsne)
    have h2 : 0 ≤ naturalH * t.uniformScale * |Real.cos (degToRad t.rotation)| :=
      mul_nonneg (le_of_lt hB) (abs_nonneg _)
    linarith
  · have h1 : 0 < naturalH * t.uniformScale * |Real.cos (degToRad t.rotation)| :=
      mul_pos hB (abs_pos.mpr hc)
    have h2 : 0 ≤ naturalW * t.uniformScale * |Real.sin (degToRad t.rotation)| :=
      mul_nonneg (le_of_lt hA) (abs_nonneg _)
    linarith

/-- Claim C4: for every valid transform state (positive uniform scale)
and positive source dimensions, the rotated extent per axis equals scaled
width times the absolute cosine plus scaled height times the absolute
sine (and symmetrically), and the chosen display scale times the rotated
extent fits within the container extent minus the fixed 40 pixel margin
on both axes. -/
theorem fit_to_container (naturalW naturalH containerW containerH : ℝ)
    (t : TransformState) (hw : 0 < naturalW) (hh : 0 < naturalH)
    (hs : 0 < t.uniformScale) :
    renderRotatedWidth naturalW naturalH t =
      naturalW * t.uniformScale * |Real.cos (degToRad t.rotation)| +
        naturalH * t.uniformScale * |Real.sin (degToRad t.rotation)| ∧
    renderRotatedHeight naturalW naturalH t =
      naturalW * t.uniformScale * |Real.sin (degToRad t.rotation)| +
        naturalH * t.uniformScale * |Real.cos (degToRad t.rotation)| ∧
    renderDisplayScale naturalW naturalH t containerW containerH *
        renderRotatedWidth naturalW naturalH t ≤ containerW - 40 ∧
    renderDisplayScale naturalW naturalH t containerW containerH *
        renderRotatedHeight naturalW naturalH t ≤ containerH - 40 := by
  have hrw := renderRotatedWidth_pos naturalW naturalH t hw hh hs
  have hrh := renderRotatedHeight_pos naturalW naturalH t hw hh hs
  refine ⟨rfl, rfl, ?_, ?_⟩
  · exact (le_div_iff₀ hrw).mp (min_le_left _ _)
  · exact (le_div_iff₀ hrh).mp (min_le_right _ _)

/-- Claim C4 witness: the fit property at a one by one image, identity
transform and a 100 by 100 container. -/
theorem fit_to_container_witness :
    (0 : ℝ) < 1 ∧ 0 < identityTransform.uniformScale ∧
    (renderRotatedWidth 1 1 identityTransform =
      1 * identityTransform.uniformScale * |Real.cos (degToRad identityTransform.rotation)| +
        1 * identityTransform.uniformScale * |Real.sin (degToRad identityTransform.rotation)| ∧
    renderRotatedHeight 1 1 identityTransform =
      1 * identityTransform.uniformScale * |Real.sin (degToRad identityTransform.rotation)| +
        1 * identityTransform.uniformScale * |Real.cos (degToRad identityTransform.rotation)| ∧
    renderDisplayScale 1 1 identityTransform 100 100 *
        renderRotatedWidth 1 1 identityTransform ≤ 100 - 40 ∧
    renderDisplayScale 1 1 identityTransform 100 100 *
        renderRotatedHeight 1 1 identityTransform ≤ 100 - 40) :=
  ⟨by norm_num, by norm_num [identityTransform],
    fit_to_container 1 1 100 100 identityTransform (by norm_num) (by norm_num)
      (by norm_num [identityTransform])⟩

/-! ## Zoom at point (ImageViewerModal handleWheel, lines 47 to 70) -/

/-- The viewer state: CSS scale and translation offset. -/
structure ViewerState where
  scale : ℝ
  posX : ℝ
  posY : ℝ

/-- The screen position of an image point under the viewer transform:
translation plus scale times the point. -/
noncomputable def screenPoint (st : ViewerState) (px py : ℝ) : ℝ × ℝ :=
  (st.posX + st.scale * px, st.posY + st.scale * py)

/-- handleWheel: the wheel direction gives a signed unit delta, the new
scale is the old scale plus delta times intensity 0.2 times the old
scale, clamped to the interval from 0.1 to 8; the point under the mouse
in image coordinates is recovered from the old transform and the new
offset is solved so that this point stays under the mouse. -/
noncomputable def handleWheel (st : ViewerState) (deltaY mouseX mouseY : ℝ) : ViewerState :=
  let delta : ℝ := if 0 < deltaY then -1 else 1
  let newScale := min (max (st.scale + delta * 0.2 * st.scale) 0.1) 8
  let pointX := (mouseX - st.posX) / st.scale
  let pointY := (mouseY - st.posY) / st.scale
  ⟨newScale, mouseX - pointX * newScale, mouseY - pointY * newScale⟩

/-- Claim C5: for every wheel zoom step centered on the mouse point, the
image point that was under the mouse before the step is still under the
mouse after it: its screen position equals the mouse position under both
the old and the new transform. -/
theorem zoom_at_point (st : ViewerState) (h : st.scale ≠ 0)
    (deltaY mouseX mouseY : ℝ) :
    screenPoint st ((mouseX - st.posX) / st.scale) ((mouseY - st.posY) / st.scale) =
      (mouseX, mouseY) ∧
    screenPoint (handleWheel st deltaY mouseX mouseY)
        ((mouseX - st.posX) / st.scale) ((mouseY - st.posY) / st.scale) =
      (mouseX, mouseY) := by
  constructor
  · simp only [screenPoint, Prod.mk.injEq]
    constructor <;> field_simp
  · simp only [handleWheel, screenPoint, Prod.mk.injEq]
    constructor <;> ring

/-- Claim C5 witness: the zoom at point property at scale 1, offset zero,
a downward wheel step and mouse position 3, 4. -/
theorem zoom_at_point_witness :
    ((⟨1, 0, 0⟩ : ViewerState).scale ≠ 0) ∧
    (screenPoint ⟨1, 0, 0⟩ ((3 - (⟨1, 0, 0⟩ : ViewerState).posX) / (⟨1, 0, 0⟩ : ViewerState).scale)
        ((4 - (⟨1, 0, 0⟩ : ViewerState).posY) / (⟨1, 0, 0⟩ : ViewerState).scale) = (3, 4) ∧
     screenPoint (handleWheel ⟨1, 0, 0⟩ 1 3 4)
        ((3 - (⟨1, 0, 0⟩ : ViewerState).posX) / (⟨1, 0, 0⟩ : ViewerState).scale)
        ((4 - (⟨1, 0, 0⟩ : ViewerState).posY) / (⟨1, 0, 0⟩ : ViewerState).scale) = (3, 4)) :=
  ⟨by norm_num, zoom_at_point ⟨1, 0, 0⟩ (by norm_num) 1 3 4⟩

/-! ## Crop apply (handleApplyCrop, lines 476 to 521, and
resetTransformsAndAdjustments, lines 233 to 243) -/

/-- The editor state fields that take part in cropping: the committed
image, the adjustments, the transform, the crop interaction state, the
viewport zoom and the on-screen canvas width at the moment of the
apply. -/
structure EditorState where
  committedImage : Raster
  brightness : ℝ
  contrast : ℝ
  saturation : ℝ
  rotation : ℝ
  uniformScale : ℝ
  flipX : ℝ
  flipY : ℝ
  activeFilter : String
  isCropping : Bool
  cropBox : Option CropBox
  zoom : ℝ
  displayCanvasWidth : ℝ

/-- resetTransformsAndAdjustments, lines 233 to 243: every transform and
adjustment field returns to its neutral value and the crop state is
cleared. -/
def resetTransformsAndAdjustments (s : EditorState) : EditorState :=
  { s with
    brightness := 100
    contrast := 100
    saturation := 100
    rotation := 0
    uniformScale := 1
    flipX := 1
    flipY := 1
    isCropping := false
    cropBox := none
    activeFilter := "none" }

/-- The transformed canvas built inside handleApplyCrop, lines 481 to
498: the committed image drawn at natural resolution into the rotated
extent, through the brightness, contrast and saturation filter (without
the preset filter and without the uniform scale), with flips and
rotation; pixels sample the committed image through the inverse of that
chain. -/
noncomputable def cropBakedRaster (s : EditorState) : Raster :=
  { width := s.committedImage.width * |Real.cos (degToRad s.rotation)| +
      s.committedImage.height * |Real.sin (degToRad s.rotation)|,
    height := s.committedImage.width * |Real.sin (degToRad s.rotation)| +
      s.committedImage.height * |Real.cos (degToRad s.rotation)|,
    pixel := fun q =>
      saturateFilter (s.saturation / 100)
        (contrastFilter (s.contrast / 100)
          (brightnessFilter (s.brightness / 100)
            (s.committedImage.pixel
              (translatePoint (s.committedImage.width / 2) (s.committedImage.height / 2)
                (unscalePoint s.flipX s.flipY
                  (unrotatePoint (degToRad s.rotation)
                    (translatePoint
                      (-((s.committedImage.width * |Real.cos (degToRad s.rotation)| +
                          s.committedImage.height * |Real.sin (degToRad s.rotation)|) / 2))
                      (-((s.committedImage.width * |Real.sin (degToRad s.rotation)| +
                          s.committedImage.height * |Real.cos (degToRad s.rotation)|) / 2))
                      q))))))) }

/-- The scale factor of handleApplyCrop, line 500: the ratio of the
native rotated extent to the display canvas width divided by the zoom. -/
noncomputable def cropScaleFactor (s : EditorState) : ℝ :=
  (cropBakedRaster s).width / (s.displayCanvasWidth / s.zoom)

/-- handleApplyCrop, lines 476 to 521: when a crop box is active, map the
box through the scale factor into the baked coordinate space, crop the
transformed raster to that region, replace the committed image with the
crop result, and reset every transform and adjustment field. -/
noncomputable def handleApplyCrop (s : EditorState) : EditorState :=
  match s.cropBox with
  | none => s
  | some box =>
    let transformed := cropBakedRaster s
    let k := cropScaleFactor s
    let newImage : Raster :=
      { width := box.width * k,
        height := box.height * k,
        pixel := fun q => transformed.pixel (box.x * k + q.1, box.y * k + q.2) }
    resetTransformsAndAdjustments { s with committedImage := newImage }

/-- Claim C6: applying the crop maps the on-screen crop box into the
baked full-resolution coordinate space via the ratio of the native
rotated extent to the display extent at that moment, crops the baked
raster to that region, replaces the committed source image with the crop
result, and afterwards every transform and adjustment field is reset to
its neutral value. -/
theorem crop_apply_postcondition (s : EditorState) (box : CropBox)
    (h : s.cropBox = some box) :
    (handleApplyCrop s).committedImage.width = box.width * cropScaleFactor s ∧
    (handleApplyCrop s).committedImage.height = box.height * cropScaleFactor s ∧
    (∀ q, (handleApplyCrop s).committedImage.pixel q =
      (cropBakedRaster s).pixel
        (box.x * cropScaleFactor s + q.1, box.y * cropScaleFactor s + q.2)) ∧
    (handleApplyCrop s).brightness = 100 ∧
    (handleApplyCrop s).contrast = 100 ∧
    (handleApplyCrop s).saturation = 100 ∧
    (handleApplyCrop s).rotation = 0 ∧
    (handleApplyCrop s).uniformScale = 1 ∧
    (handleApplyCrop s).flipX = 1 ∧
    (handleApplyCrop s).flipY = 1 ∧
    (handleApplyCrop s).activeFilter = "none" ∧
    (handleApplyCrop s).isCropping = false ∧
    (handleApplyCrop s).cropBox = none := by
  have hstep : handleApplyCrop s =
      resetTransformsAndAdjustments
        { s with committedImage :=
            { width := box.width * cropScaleFactor s,
              height := box.height * cropScaleFactor s,
              pixel := fun q => (cropBakedRaster s).pixel
                (box.x * cropScaleFactor s + q.1, box.y * cropScaleFactor s + q.2) } } := by
    simp only [handleApplyCrop, h]
  rw [hstep]
  simp [resetTransformsAndAdjustments]

/-- Claim C6 witness: the crop apply postcondition at a concrete editor
state with an active unit crop box. -/
theorem crop_apply_postcondition_witness :
    ((⟨⟨1, 1, fun _ => ⟨0, 0, 0, 0⟩⟩, 100, 100, 100, 0, 1, 1, 1, "none",
        true, some ⟨0, 0, 1, 1⟩, 1, 1⟩ : EditorState).cropBox = some ⟨0, 0, 1, 1⟩) ∧
    ((handleApplyCrop ⟨⟨1, 1, fun _ => ⟨0, 0, 0, 0⟩⟩, 100, 100, 100, 0, 1, 1, 1, "none",
        true, some ⟨0, 0, 1, 1⟩, 1, 1⟩).committedImage.width =
      (⟨0, 0, 1, 1⟩ : CropBox).width *
        cropScaleFactor ⟨⟨1, 1, fun _ => ⟨0, 0, 0, 0⟩⟩, 100, 100, 100, 0, 1, 1, 1, "none",
          true, some ⟨0, 0, 1, 1⟩, 1, 1⟩ ∧
     (handleApplyCrop ⟨⟨1, 1, fun _ => ⟨0, 0, 0, 0⟩⟩, 100, 100, 100, 0, 1, 1, 1, "none",
        true, some ⟨0, 0, 1, 1⟩, 1, 1⟩).committedImage.height =
      (⟨0, 0, 1, 1⟩ : CropBox).height *
        cropScaleFactor ⟨⟨1, 1, fun _ => ⟨0, 0, 0, 0⟩⟩, 100, 100, 100, 0, 1, 1, 1, "none",
          true, some ⟨0, 0, 1, 1⟩, 1, 1⟩ ∧
     (∀ q, (handleApplyCrop ⟨⟨1, 1, fun _ => ⟨0, 0, 0, 0⟩⟩, 100, 100, 100, 0, 1, 1, 1, "none",
        true, some ⟨0, 0, 1, 1⟩, 1, 1⟩).committedImage.pixel q =
      (cropBakedRaster ⟨⟨1, 1, fun _ => ⟨0, 0, 0, 0⟩⟩, 100, 100, 100, 0, 1, 1, 1, "none",
          true, some ⟨0, 0, 1, 1⟩, 1, 1⟩).pixel
        ((⟨0, 0, 1, 1⟩ : CropBox).x *
            cropScaleFactor ⟨⟨1, 1, fun _ => ⟨0, 0, 0, 0⟩⟩, 100, 100, 100, 0, 1, 1, 1, "none",
              true, some ⟨0, 0, 1, 1⟩, 1, 1⟩ + q.1,
          (⟨0, 0, 1, 1⟩ : CropBox).y *
            cropScaleFactor ⟨⟨1, 1, fun _ => ⟨0, 0, 0, 0⟩⟩, 100, 100, 100, 0, 1, 1, 1, "none",
              true, some ⟨0, 0, 1, 1⟩, 1, 1⟩ + q.2)) ∧
     (handleApplyCrop ⟨⟨1, 1, fun _ => ⟨0, 0, 0, 0⟩⟩, 100, 100, 100, 0, 1, 1, 1, "none",
        true, some ⟨0, 0, 1, 1⟩, 1, 1⟩).brightness = 100 ∧
     (handleApplyCrop ⟨⟨1, 1, fun _ => ⟨0, 0, 0, 0⟩⟩, 100, 100, 100, 0, 1, 1, 1, "none",
        true, some ⟨0, 0, 1, 1⟩, 1, 1⟩).contrast = 100 ∧
     (handleApplyCrop ⟨⟨1, 1, fun _ => ⟨0, 0, 0, 0⟩⟩, 100, 100, 100, 0, 1, 1, 1, "none",
        true, some ⟨0, 0, 1, 1⟩, 1, 1⟩).saturation = 100 ∧
     (handleApplyCrop ⟨⟨1, 1, fun _ => ⟨0, 0, 0, 0⟩⟩, 100, 100, 100, 0, 1, 1, 1, "none",
        true, some ⟨0, 0, 1, 1⟩, 1, 1⟩).rotation = 0 ∧
     (handleApplyCrop ⟨⟨1, 1, fun _ => ⟨0, 0, 0, 0⟩⟩, 100, 100, 100, 0, 1, 1, 1, "none",
        true, some ⟨0, 0, 1, 1⟩, 1, 1⟩).uniformScale = 1 ∧
     (handleApplyCrop ⟨⟨1, 1, fun _ => ⟨0, 0, 0, 0⟩⟩, 100, 100, 100, 0, 1, 1, 1, "none",
        true, some ⟨0, 0, 1, 1⟩, 1, 1⟩).flipX = 1 ∧
     (handleApplyCrop ⟨⟨1, 1, fun _ => ⟨0, 0, 0, 0⟩⟩, 100, 100, 100, 0, 1, 1, 1, "none",
        true, some ⟨0, 0, 1, 1⟩, 1, 1⟩).flipY = 1 ∧
     (handleApplyCrop ⟨⟨1, 1, fun _ => ⟨0, 0, 0, 0⟩⟩, 100, 100, 100, 0, 1, 1, 1, "none",
        true, some ⟨0, 0, 1, 1⟩, 1, 1⟩).activeFilter = "none" ∧
     (handleApplyCrop ⟨⟨1, 1, fun _ => ⟨0, 0, 0, 0⟩⟩, 100, 100, 100, 0, 1, 1, 1, "none",
        true, some ⟨0, 0, 1, 1⟩, 1, 1⟩).isCropping = false ∧
     (handleApplyCrop ⟨⟨1, 1, fun _ => ⟨0, 0, 0, 0⟩⟩, 100, 100, 100, 0, 1, 1, 1, "none",
        true, some ⟨0, 0, 1, 1⟩, 1, 1⟩).cropBox = none) :=
  ⟨rfl, crop_apply_postcondition _ ⟨0, 0, 1, 1⟩ rfl⟩

/-! ## Remote service response handling (geminiService: generateImage,
editImage, enhanceImage, removeBackground) -/

/-- A base64 image payload with its MIME type. -/
structure ImageData where
  mimeType : String
  data : String
  deriving DecidableEq

/-- One part of the service response: optional inline image data and
optional text. -/
structure ResponsePart where
  inlineData : Option ImageData
  text : Option String
  deriving DecidableEq

/-- The service response as read by the source: the parts of the first
candidate, its finish reason, and the aggregated response text. -/
structure GenResponse where
  parts : List ResponsePart
  finishReason : Option String
  text : Option String
  deriving DecidableEq

/-- The extraction loop shared by generateImage (lines 79 to 86) and
editImage (lines 155 to 162): return the first part that carries inline
image data. -/
def firstInlineImage : List ResponsePart → Option ImageData
  | [] => none
  | p :: rest =>
    match p.inlineData with
    | some d => some d
    | none => firstInlineImage rest

/-- The text append step of the failure message: when the response text
is present and trim-nonempty it is appended in quotes. -/
def appendResponseText (respText : Option String) (msg : String) : String :=
  match respText with
  | some t =>
      if t.trim = "" then msg
      else msg ++ (" The model responded with: \"" ++ t.trim ++ "\"")
  | none => msg

/-- The failure message built when no image part is present: a truthy
finish reason other than STOP replaces the base message by the reason
message, then any trim-nonempty response text is appended (lines 88 to
97 and 164 to 174). -/
def noImageErrorMessage (base : String) (resp : GenResponse) : String :=
  appendResponseText resp.text
    (match resp.finishReason with
     | some fr =>
        if fr ≠ "" ∧ fr ≠ "STOP" then
          "Image generation failed with reason: " ++ fr ++ "."
        else base
     | none => base)

/-- The base failure message of generateImage, line 91. -/
def generateNoImageBase : String :=
  "The AI did not return an image. This might be due to a safety filter or an issue with the prompt. Please try rephrasing."

/-- The base failure message of editImage, line 168. -/
def editNoImageBase : String := "No edited image data found in the response."

/-- Shared response handling of generateImage and editImage: the first
inline image part on success, the built failure message otherwise. -/
def imageResultFromResponse (base : String) (resp : GenResponse) :
    Except String ImageData :=
  match firstInlineImage resp.parts with
  | some d => Except.ok d
  | none => Except.error (noImageErrorMessage base resp)

/-- generateImage response handling, lines 79 to 99. -/
def generateImageResult (resp : GenResponse) : Except String ImageData :=
  imageResultFromResponse generateNoImageBase resp

/-- editImage response handling, lines 155 to 176. -/
def editImageResult (resp : GenResponse) : Except String ImageData :=
  imageResultFromResponse editNoImageBase resp

/-- A part of the outgoing request. -/
inductive RequestPart
  | inlineImage (d : ImageData)
  | textPart (t : String)
  deriving DecidableEq

/-- The request parts built by editImage, lines 126 to 143: the image,
the prompt, and the optional mask. -/
def editRequestParts (prompt : String) (image : ImageData)
    (mask : Option ImageData) : List RequestPart :=
  match mask with
  | some m => [RequestPart.inlineImage image, RequestPart.textPart prompt,
      RequestPart.inlineImage m]
  | none => [RequestPart.inlineImage image, RequestPart.textPart prompt]

/-- The fixed enhancement prompt, line 197. -/
def enhancePromptText : String :=
  "Enhance this image, improving quality, details, and clarity. Make it sharper and more vibrant without altering the main subject."

/-- The fixed background removal prompt, line 214. -/
def removeBackgroundPromptText : String :=
  "Remove the background of this image, making it transparent. The main subject should be preserved perfectly. The output must be a PNG with a transparent background."

/-- enhanceImage delegates to editImage with the fixed prompt. -/
def enhanceRequestParts (image : ImageData) : List RequestPart :=
  editRequestParts enhancePromptText image none

/-- removeBackground delegates to editImage with the fixed prompt. -/
def removeBackgroundRequestParts (image : ImageData) : List RequestPart :=
  editRequestParts removeBackgroundPromptText image none

/-- enhanceImage response handling, lines 199 to 212: the editImage
result, with failures re-wrapped under the enhancement prefix. -/
def enhanceImageResult (resp : GenResponse) : Except String ImageData :=
  match editImageResult resp with
  | Except.ok d => Except.ok d
  | Except.error m => Except.error ("Enhancement failed: " ++ m)

/-- removeBackground response handling, lines 216 to 229: the editImage
result, with failures re-wrapped under the background removal prefix. -/
def removeBackgroundResult (resp : GenResponse) : Except String ImageData :=
  match editImageResult resp with
  | Except.ok d => Except.ok d
  | Except.error m => Except.error ("Background removal failed: " ++ m)

theorem firstInlineImage_eq_none_iff (ps : List ResponsePart) :
    firstInlineImage ps = none ↔ ∀ p ∈ ps, p.inlineData = none := by
  induction ps with
  | nil => simp [firstInlineImage]
  | cons p rest ih =>
    cases hp : p.inlineData with
    | some d => simp [firstInlineImage, hp]
    | none => simp [firstInlineImage, hp, ih]

theorem firstInlineImage_prefix (pre : List ResponsePart) (part : ResponsePart)
    (post : List ResponsePart) (d : ImageData)
    (hpre : ∀ q ∈ pre, q.inlineData = none) (hd : part.inlineData = some d) :
    firstInlineImage (pre ++ part :: post) = some d := by
  induction pre with
  | nil => simp [firstInlineImage, hd]
  | cons q rest ih =>
    have hq : q.inlineData = none := hpre q (by simp)
    simp only [List.cons_append, firstInlineImage, hq]
    exact ih (fun r hr => hpre r (by simp [hr]))

theorem imageResult_ok_iff (base : String) (resp : GenResponse) :
    (∃ d, imageResultFromResponse base resp = Except.ok d) ↔
      ∃ p ∈ resp.parts, p.inlineData ≠ none := by
  cases hfi : firstInlineImage resp.parts with
  | none =>
    have hall := (firstInlineImage_eq_none_iff resp.parts).mp hfi
    simp only [imageResultFromResponse, hfi]
    constructor
    · rintro ⟨d, hd⟩
      cases hd
    · rintro ⟨p, hp, hpd⟩
      exact absurd (hall p hp) hpd
  | some d =>
    simp only [imageResultFromResponse, hfi]
    constructor
    · intro _
      by_contra hcon
      push_neg at hcon
      have : firstInlineImage resp.parts = none :=
        (firstInlineImage_eq_none_iff resp.parts).mpr hcon
      rw [hfi] at this
      cases this
    · intro _
      exact ⟨d, rfl⟩

theorem imageResult_error_of_none (base : String) (resp : GenResponse)
    (hall : ∀ p ∈ resp.parts, p.inlineData = none) :
    imageResultFromResponse base resp =
      Except.error (noImageErrorMessage base resp) := by
  have hfi : firstInlineImage resp.parts = none :=
    (firstInlineImage_eq_none_iff resp.parts).mpr hall
  simp [imageResultFromResponse, hfi]

theorem noImageErrorMessage_reason (base : String) (resp : GenResponse)
    (fr : String) (hfr : resp.finishReason = some fr) (h1 : fr ≠ "")
    (h2 : fr ≠ "STOP") :
    ∃ u v, noImageErrorMessage base resp = u ++ fr ++ v := by
  simp only [noImageErrorMessage, hfr, if_pos (And.intro h1 h2)]
  cases ht : resp.text with
  | none =>
    exact ⟨"Image generation failed with reason: ", ".", rfl⟩
  | some t =>
    by_cases htr : t.trim = ""
    · simp only [appendResponseText, htr, if_pos]
      exact ⟨"Image generation failed with reason: ", ".", rfl⟩
    · simp only [appendResponseText, htr, if_neg, if_false]
      refine ⟨"Image generation failed with reason: ",
        "." ++ (" The model responded with: \"" ++ t.trim ++ "\""), ?_⟩
      simp [String.append_assoc]

theorem noImageErrorMessage_text (base : String) (resp : GenResponse)
    (t : String) (ht : resp.text = some t) (htr : t.trim ≠ "") :
    ∃ u, noImageErrorMessage base resp =
      u ++ (" The model responded with: \"" ++ t.trim ++ "\"") := by
  simp only [noImageErrorMessage, ht, appendResponseText, htr, if_neg, if_false]
  exact ⟨_, rfl⟩

/-- Claim C8: generateImage and editImage fail exactly when no image part
is present in the response, and otherwise return the first image part;
when they fail with a truthy finish reason other than STOP, the failure
message contains that finish reason, and when the response carries text
with nonempty trim, the failure message ends with that trimmed text in
quotes. -/
theorem remote_no_image_failure (resp : GenResponse) :
    ((∃ d, generateImageResult resp = Except.ok d) ↔
      ∃ p ∈ resp.parts, p.inlineData ≠ none) ∧
    ((∃ d, editImageResult resp = Except.ok d) ↔
      ∃ p ∈ resp.parts, p.inlineData ≠ none) ∧
    (∀ pre part post d, resp.parts = pre ++ part :: post →
      (∀ q ∈ pre, q.inlineData = none) → part.inlineData = some d →
      generateImageResult resp = Except.ok d ∧
      editImageResult resp = Except.ok d) ∧
    (∀ fr, (∀ p ∈ resp.parts, p.inlineData = none) →
      resp.finishReason = some fr → fr ≠ "" → fr ≠ "STOP" →
      (∃ m, generateImageResult resp = Except.error m ∧ ∃ u v, m = u ++ fr ++ v) ∧
      (∃ m, editImageResult resp = Except.error m ∧ ∃ u v, m = u ++ fr ++ v)) ∧
    (∀ t, (∀ p ∈ resp.parts, p.inlineData = none) →
      resp.text = some t → t.trim ≠ "" →
      (∃ m, generateImageResult resp = Except.error m ∧
        ∃ u, m = u ++ (" The model responded with: \"" ++ t.trim ++ "\"")) ∧
      (∃ m, editImageResult resp = Except.error m ∧
        ∃ u, m = u ++ (" The model responded with: \"" ++ t.trim ++ "\""))) := by
  refine ⟨imageResult_ok_iff generateNoImageBase resp,
    imageResult_ok_iff editNoImageBase resp, ?_, ?_, ?_⟩
  · intro pre part post d hparts hpre hd
    have hfi : firstInlineImage resp.parts = some d := by
      rw [hparts]
      exact firstInlineImage_prefix pre part post d hpre hd
    constructor <;>
      simp [generateImageResult, editImageResult, imageResultFromResponse, hfi]
  · intro fr hall hfr h1 h2
    refine ⟨⟨noImageErrorMessage generateNoImageBase resp,
        imageResult_error_of_none generateNoImageBase resp hall,
        noImageErrorMessage_reason generateNoImageBase resp fr hfr h1 h2⟩,
      ⟨noImageErrorMessage editNoImageBase resp,
        imageResult_error_of_none editNoImageBase resp hall,
        noImageErrorMessage_reason editNoImageBase resp fr hfr h1 h2⟩⟩
  · intro t hall ht htr
    refine ⟨⟨noImageErrorMessage generateNoImageBase resp,
        imageResult_error_of_none generateNoImageBase resp hall,
        noImageErrorMessage_text generateNoImageBase resp t ht htr⟩,
      ⟨noImageErrorMessage editNoImageBase resp,
        imageResult_error_of_none editNoImageBase resp hall,
        noImageErrorMessage_text editNoImageBase resp t ht htr⟩⟩

/-- The SAFETY scenario response of the spec: no image part, finish
reason SAFETY, no text. -/
def safetyResponse : GenResponse := ⟨[], some "SAFETY", none⟩

/-- Claim C8 witness: for the response with no image part and finish
reason SAFETY, both thrown error texts contain SAFETY. -/
theorem remote_no_image_failure_witness :
    (∃ m, generateImageResult safetyResponse = Except.error m ∧
      ∃ u v, m = u ++ "SAFETY" ++ v) ∧
    (∃ m, editImageResult safetyResponse = Except.error m ∧
      ∃ u v, m = u ++ "SAFETY" ++ v) :=
  (remote_no_image_failure safetyResponse).2.2.2.1 "SAFETY"
    (by intro p hp; cases hp) rfl (by decide) (by decide)

/-- Claim C9: enhanceImage and removeBackground delegate to editImage
with their fixed prompts; every failure of editImage is re-wrapped with
the stage prefix, and successes pass through unchanged. -/
theorem stage_error_rewrapping (resp : GenResponse) (image : ImageData) :
    enhanceRequestParts image = editRequestParts enhancePromptText image none ∧
    removeBackgroundRequestParts image =
      editRequestParts removeBackgroundPromptText image none ∧
    (∀ m, editImageResult resp = Except.error m →
      enhanceImageResult resp = Except.error ("Enhancement failed: " ++ m) ∧
      removeBackgroundResult resp = Except.error ("Background removal failed: " ++ m)) ∧
    (∀ d, editImageResult resp = Except.ok d →
      enhanceImageResult resp = Except.ok d ∧
      removeBackgroundResult resp = Except.ok d) := by
  refine ⟨rfl, rfl, ?_, ?_⟩
  · intro m hm
    constructor <;> simp [enhanceImageResult, removeBackgroundResult, hm]
  · intro d hd
    constructor <;> simp [enhanceImageResult, removeBackgroundResult, hd]

/-- The empty response: no parts, no finish reason, no text. -/
def emptyResponse : GenResponse := ⟨[], none, none⟩

/-- Claim C9 witness: on the empty response editImage fails with its base
message and both wrappers prepend their stage prefix to it. -/
theorem stage_error_rewrapping_witness :
    enhanceImageResult emptyResponse =
      Except.error ("Enhancement failed: " ++ editNoImageBase) ∧
    removeBackgroundResult emptyResponse =
      Except.error ("Background removal failed: " ++ editNoImageBase) :=
  (stage_error_rewrapping emptyResponse ⟨"image/png", "aGVsbG8="⟩).2.2.1
    editNoImageBase rfl

/-! ## Session scoped message store (utils db: addMessageToDB,
getAllMessagesFromDB, clearAllMessages) -/

/-- A record of the messages store: auto-incremented id, owning session
identifier, timestamp and the message content, which is abstracted by a
type parameter. -/
structure StoredMessage (α : Type) where
  id : Nat
  sessionId : String
  timestamp : Nat
  content : α
  deriving DecidableEq

/-- The state of the messages object store: the auto-increment counter
and the stored records. -/
structure DBState (α : Type) where
  nextId : Nat
  messages : List (StoredMessage α)
  deriving DecidableEq

/-- addMessageToDB, lines 80 to 103: store.add of the message together
with the session identifier and the current timestamp; the record
receives the next auto-increment key. -/
def addMessageToDB {α : Type} (st : DBState α) (content : α)
    (sessionId : String) (timestamp : Nat) : DBState α :=
  ⟨st.nextId + 1, st.messages ++ [⟨st.nextId, sessionId, timestamp, content⟩]⟩

/-- getAllMessagesFromDB, lines 105 to 124: getAll on the sessionId index
returns the records of that session, then the result is sorted by
timestamp. -/
def getAllMessagesFromDB {α : Type} (st : DBState α) (sessionId : String) :
    List (StoredMessage α) :=
  (st.messages.filter (fun m => m.sessionId == sessionId)).mergeSort
    (fun a b => a.timestamp ≤ b.timestamp)

/-- clearAllMessages, lines 145 to 171: a key cursor over the sessionId
index deletes exactly the records of the given session. -/
def clearAllMessages {α : Type} (st : DBState α) (sessionId : String) : DBState α :=
  ⟨st.nextId, st.messages.filter (fun m => m.sessionId != sessionId)⟩

theorem mem_getAllMessagesFromDB {α : Type} (st : DBState α) (sessionId : String)
    (m : StoredMessage α) (hm : m ∈ getAllMessagesFromDB st sessionId) :
    m.sessionId = sessionId := by
  have h1 := List.mem_mergeSort.mp hm
  have h2 := (List.mem_filter.mp h1).2
  simpa using h2

theorem clear_filter_self {α : Type} (A : String) (l : List (StoredMessage α)) :
    (l.filter (fun m => m.sessionId != A)).filter (fun m => m.sessionId == A) = [] := by
  induction l with
  | nil => simp
  | cons x xs ih =>
    by_cases hx : x.sessionId = A <;> simp [List.filter_cons, hx, ih]

theorem clear_filter_other {α : Type} (A B : String) (h : A ≠ B)
    (l : List (StoredMessage α)) :
    (l.filter (fun m => m.sessionId != A)).filter (fun m => m.sessionId == B) =
      l.filter (fun m => m.sessionId == B) := by
  induction l with
  | nil => simp
  | cons x xs ih =>
    by_cases hx : x.sessionId = A
    · have hxb : x.sessionId ≠ B := by
        rw [hx]
        exact h
      simp [List.filter_cons, hx, hxb, ih, h, Ne.symm h]
    · by_cases hxb : x.sessionId = B <;>
        simp [List.filter_cons, hx, hxb, ih, h, Ne.symm h]

/-- Claim C10: session isolation of the message store. Every record
returned for a session carries that session identifier, so a message
added under session A is never returned for a different session B;
adding under A leaves the query for B unchanged; and clearAllMessages A
deletes exactly the records whose session identifier is A, leaving the
records and query results of B unchanged. -/
theorem session_isolation {α : Type} (st : DBState α) (A B : String) (h : A ≠ B)
    (content : α) (ts : Nat) :
    (∀ m ∈ getAllMessagesFromDB st B, m.sessionId = B) ∧
    getAllMessagesFromDB (addMessageToDB st content A ts) B =
      getAllMessagesFromDB st B ∧
    (∀ m, m ∈ (clearAllMessages st A).messages ↔
      m ∈ st.messages ∧ m.sessionId ≠ A) ∧
    getAllMessagesFromDB (clearAllMessages st A) A = [] ∧
    getAllMessagesFromDB (clearAllMessages st A) B = getAllMessagesFromDB st B := by
  refine ⟨fun m hm => mem_getAllMessagesFromDB st B m hm, ?_, ?_, ?_, ?_⟩
  · unfold getAllMessagesFromDB addMessageToDB
    congr 1
    simp [List.filter_append, h]
  · intro m
    unfold clearAllMessages
    simp [List.mem_filter]
  · unfold getAllMessagesFromDB clearAllMessages
    rw [clear_filter_self A st.messages]
    simp
  · unfold getAllMessagesFromDB clearAllMessages
    congr 1
    exact clear_filter_other A B h st.messages

/-- Claim C10 witness: session isolation at a concrete store holding one
record for session a and one for session b. -/
theorem session_isolation_witness :
    ("a" ≠ "b") ∧
    ((∀ m ∈ getAllMessagesFromDB (⟨3, [⟨1, "a", 2, 0⟩, ⟨2, "b", 1, 0⟩]⟩ : DBState Nat) "b",
        m.sessionId = "b") ∧
      getAllMessagesFromDB (addMessageToDB (⟨3, [⟨1, "a", 2, 0⟩, ⟨2, "b", 1, 0⟩]⟩ : DBState Nat) 7 "a" 9) "b" =
        getAllMessagesFromDB (⟨3, [⟨1, "a", 2, 0⟩, ⟨2, "b", 1, 0⟩]⟩ : DBState Nat) "b" ∧
      (∀ m, m ∈ (clearAllMessages (⟨3, [⟨1, "a", 2, 0⟩, ⟨2, "b", 1, 0⟩]⟩ : DBState Nat) "a").messages ↔
        m ∈ (⟨3, [⟨1, "a", 2, 0⟩, ⟨2, "b", 1, 0⟩]⟩ : DBState Nat).messages ∧ m.sessionId ≠ "a") ∧
      getAllMessagesFromDB (clearAllMessages (⟨3, [⟨1, "a", 2, 0⟩, ⟨2, "b", 1, 0⟩]⟩ : DBState Nat) "a") "a" = [] ∧
      getAllMessagesFromDB (clearAllMessages (⟨3, [⟨1, "a", 2, 0⟩, ⟨2, "b", 1, 0⟩]⟩ : DBState Nat) "a") "b" =
        getAllMessagesFromDB (⟨3, [⟨1, "a", 2, 0⟩, ⟨2, "b", 1, 0⟩]⟩ : DBState Nat) "b") :=
  ⟨by decide, session_isolation ⟨3, [⟨1, "a", 2, 0⟩, ⟨2, "b", 1, 0⟩]⟩ "a" "b"
    (by decide) 7 9⟩
